import Mathlib

/-!
Verification of the GPS-verified check-in/check-out subsystem
(`src/backend/routes/checkins.js`) of the ConstruX field-operations tracker.

The embedding models the four route handlers of that file over an explicit
ledger state (the `checkins` table) and an environment holding the `workers`
and `projects` tables.  Numeric JSON values are modelled as rationals,
timestamps as integers (milliseconds since the epoch, as JavaScript `Date`
arithmetic produces), and the haversine computation over the real numbers
(ECMA-262 leaves `Math.sin`/`Math.cos`/`Math.atan2` implementation-
approximated, so only its comparison structure is relied on).  The checkout
hours division, by contrast, is fully specified by ECMA-262 as IEEE 754
binary64 division and is modelled bit-exactly (`roundB64` below).  Database
`DECIMAL` columns (the project GPS coordinates) are
returned by the `pg` driver as strings, so their JavaScript truthiness is
mere presence; request-body JSON numbers are falsy exactly when they are 0.
-/

namespace ConstruX

/-- JavaScript `Math.atan2 y x` for real arguments (the IEEE quadrant
convention; `atan2 0 0 = 0`). -/
noncomputable def atan2 (y x : ℝ) : ℝ :=
  if 0 < x then Real.arctan (y / x)
  else if x < 0 ∧ 0 ≤ y then Real.arctan (y / x) + Real.pi
  else if x < 0 then Real.arctan (y / x) - Real.pi
  else if x = 0 ∧ 0 < y then Real.pi / 2
  else if x = 0 ∧ y < 0 then -(Real.pi / 2)
  else 0

/-- `calculateDistance` from `checkins.js` lines 8–21: haversine great-circle
distance in meters between two latitude/longitude pairs in decimal degrees,
with Earth radius `6371e3` meters. -/
noncomputable def calculateDistance (lat1 lon1 lat2 lon2 : ℝ) : ℝ :=
  let R : ℝ := 6371000
  let phi1 := lat1 * Real.pi / 180
  let phi2 := lat2 * Real.pi / 180
  let dphi := (lat2 - lat1) * Real.pi / 180
  let dlam := (lon2 - lon1) * Real.pi / 180
  let a := Real.sin (dphi / 2) * Real.sin (dphi / 2) +
    Real.cos phi1 * Real.cos phi2 * Real.sin (dlam / 2) * Real.sin (dlam / 2)
  let c := 2 * atan2 (Real.sqrt a) (Real.sqrt (1 - a))
  R * c

/-- JavaScript `Math.round`: round half toward positive infinity. -/
noncomputable def jsRound (x : ℝ) : ℤ := ⌊x + 1 / 2⌋

/-- ECMAScript `Number.prototype.toFixed(2)` applied to the exact rational
value of a double `x`: the integer `n` with `n / 100` closest to `x`, ties
resolved to the larger `n` — that is, rounding to two decimal places half
toward positive infinity.  (A tie `100·x = k + 1/2` with `x` a double forces
`x = (2k+1)/200` with an odd numerator over `2^i·25`, e.g. `x = 0.125`, and
both rules agree there too.) -/
def toFixed2 (x : ℚ) : ℚ := ((⌊x * 100 + 1 / 2⌋ : ℤ) : ℚ) / 100

/-- Round a rational to an integer, nearest value with ties to even — the
IEEE 754 default rounding used by ECMAScript arithmetic. -/
def roundHalfEven (x : ℚ) : ℤ :=
  if x - ⌊x⌋ < 1 / 2 then ⌊x⌋
  else if 1 / 2 < x - ⌊x⌋ then ⌊x⌋ + 1
  else if 2 ∣ ⌊x⌋ then ⌊x⌋ else ⌊x⌋ + 1

/-- `⌊log₂ q⌋` for a positive rational, computed from `Nat.log 2` of the
numerator and denominator with a one-step correction. -/
def floorLog2 (q : ℚ) : ℤ :=
  if (2 : ℚ) ^ ((Nat.log 2 q.num.toNat : ℤ) - (Nat.log 2 q.den : ℤ)) ≤ q
  then (Nat.log 2 q.num.toNat : ℤ) - (Nat.log 2 q.den : ℤ)
  else (Nat.log 2 q.num.toNat : ℤ) - (Nat.log 2 q.den : ℤ) - 1

/-- IEEE 754 binary64 rounding of a positive rational in the normal range:
round the 53-bit significand (52 fractional bits) to nearest, ties to
even.  Subnormal and overflowing magnitudes are outside the range of the
durations this model divides and are not modelled. -/
def roundB64pos (q : ℚ) : ℚ :=
  ((roundHalfEven (q * 2 ^ (52 - floorLog2 q)) : ℤ) : ℚ) * 2 ^ (floorLog2 q - 52)

/-- The exact rational value of the ECMAScript double-precision quotient:
ECMA-262 specifies Number division as IEEE 754 binary64 division, i.e. the
exact quotient rounded to nearest, ties to even.  (The dividend
`checkoutTime - checkinTime` and the divisor `1000*60*60` are integers below
`2^53`, hence exact, so the division is the only rounding step.) -/
def roundB64 (q : ℚ) : ℚ :=
  if q = 0 then 0 else if 0 < q then roundB64pos q else -roundB64pos (-q)

/-- JavaScript `v || null` on an optional string (`photoUrl || null`,
`notes || null`): the empty string is falsy and becomes `null`. -/
def jsOrNullStr (o : Option String) : Option String :=
  match o with
  | some v => if v = "" then none else some v
  | none => none

/-- A row of the `projects` table, restricted to the columns the check-in
handler reads: `gps_latitude DECIMAL(10,8)`, `gps_longitude DECIMAL(11,8)`,
`geofence_radius_meters INTEGER`.  The `DECIMAL` columns come back from the
`pg` driver as strings, so a present coordinate is always truthy. -/
structure Project where
  gps_latitude : Option ℚ
  gps_longitude : Option ℚ
  geofence_radius_meters : Option ℤ
  deriving DecidableEq

/-- `project.geofence_radius_meters || 100` (`checkins.js` line 67):
`INTEGER` columns come back as JavaScript numbers, so both `NULL` and `0`
fall back to the default 100. -/
def radiusOr100 (proj : Project) : ℤ :=
  match proj.geofence_radius_meters with
  | some r => if r = 0 then 100 else r
  | none => 100

/-- A row of the `checkins` table, as created and updated by
`checkins.js`. -/
structure CheckinRecord where
  id : ℕ
  worker_id : ℕ
  project_id : ℕ
  checkin_time : ℤ
  checkout_time : Option ℤ
  checkin_gps_lat : ℚ
  checkin_gps_lng : ℚ
  checkout_gps_lat : Option ℚ
  checkout_gps_lng : Option ℚ
  checkin_photo_url : Option String
  checkout_photo_url : Option String
  is_late : Bool
  hours_worked : Option ℚ
  notes : Option String
  deriving DecidableEq

/-- The ledger: the `checkins` table together with the next value of its
`SERIAL` primary-key sequence. -/
structure LedgerState where
  checkins : List CheckinRecord
  nextId : ℕ
  deriving DecidableEq

/-- The external tables the handlers consult: `workers` (lookup of a worker
id by authenticated `user_id`, and row existence for the reporting joins)
and `projects`. -/
structure Env where
  workerOf : ℕ → Option ℕ
  projectOf : ℕ → Option Project
  workerExists : ℕ → Bool

/-- Body of `POST /checkin` (`checkins.js` line 26).  GPS values arrive as
JSON numbers; `scheduledTime` is modelled as the parsed epoch value of a
supplied (non-empty) timestamp string. -/
structure CheckinRequest where
  projectId : Option ℕ
  gpsLat : Option ℚ
  gpsLng : Option ℚ
  photoUrl : Option String
  scheduledTime : Option ℤ

/-- Body of `POST /checkout` (`checkins.js` line 119). -/
structure CheckoutRequest where
  gpsLat : Option ℚ
  gpsLng : Option ℚ
  photoUrl : Option String
  notes : Option String

/-- The typed error responses of `checkins.js` (400 missing fields,
404 worker/project lookup, 403 geofence with its rounded distance and the
allowed radius, 409 conflict with the existing check-in id, 404 no active
check-in). -/
inductive ApiError where
  | missingFields
  | workerNotFound
  | projectNotFound
  | geofenceViolation (distance : ℤ) (maxDistance : ℤ)
  | alreadyCheckedIn (checkinId : ℕ)
  | noActiveShift
  deriving DecidableEq

/-- `SELECT id FROM checkins WHERE worker_id = $1 AND checkout_time IS NULL`
(`checkins.js` line 80): the open shifts of a worker, in table order. -/
def openShiftsOf (s : LedgerState) (workerId : ℕ) : List CheckinRecord :=
  s.checkins.filter (fun c => c.worker_id == workerId && c.checkout_time.isNone)

/-- `SELECT * FROM checkins WHERE worker_id = $1 AND checkout_time IS NULL
ORDER BY checkin_time DESC LIMIT 1` (`checkins.js` line 141): the open shift
with the greatest check-in time, if any. -/
def findActiveCheckin (s : LedgerState) (workerId : ℕ) : Option CheckinRecord :=
  (openShiftsOf s workerId).argmax (fun c => c.checkin_time)

/-- The tail of the check-in handler after the geofence check
(`checkins.js` lines 79–112): reject with 409 if an open shift exists
(reporting `rows[0].id`), otherwise compute `is_late` (strict comparison of
the current time against a supplied `scheduledTime`) and insert the new
check-in row. -/
def checkinAfterGeofence (now : ℤ) (pid workerId : ℕ) (lat lng : ℚ)
    (req : CheckinRequest) (s : LedgerState) :
    Except ApiError CheckinRecord × LedgerState :=
  match openShiftsOf s workerId with
  | c :: _ => (Except.error (ApiError.alreadyCheckedIn c.id), s)
  | [] =>
    let isLate : Bool :=
      match req.scheduledTime with
      | some t => decide (t < now)
      | none => false
    let newCheckin : CheckinRecord :=
      { id := s.nextId
        worker_id := workerId
        project_id := pid
        checkin_time := now
        checkout_time := none
        checkin_gps_lat := lat
        checkin_gps_lng := lng
        checkout_gps_lat := none
        checkout_gps_lng := none
        checkin_photo_url := jsOrNullStr req.photoUrl
        checkout_photo_url := none
        is_late := isLate
        hours_worked := none
        notes := none }
    (Except.ok newCheckin, ⟨s.checkins ++ [newCheckin], s.nextId + 1⟩)

/-- `POST /checkin` (`checkins.js` lines 23–115): validate the body
(JavaScript truthiness — a 0 coordinate or 0 project id is falsy), resolve
the worker, resolve the project, apply the geofence when the project has
both GPS columns set (strict `distance > maxDistance` rejection carrying
`Math.round(distance)` and the radius), then the conflict check and the
insert. -/
noncomputable def checkinHandler (env : Env) (now : ℤ) (userId : ℕ)
    (req : CheckinRequest) (s : LedgerState) :
    Except ApiError CheckinRecord × LedgerState :=
  match req.projectId, req.gpsLat, req.gpsLng with
  | some pid, some lat, some lng =>
    if pid = 0 ∨ lat = 0 ∨ lng = 0 then (Except.error ApiError.missingFields, s)
    else
      match env.workerOf userId with
      | none => (Except.error ApiError.workerNotFound, s)
      | some workerId =>
        match env.projectOf pid with
        | none => (Except.error ApiError.projectNotFound, s)
        | some proj =>
          match proj.gps_latitude, proj.gps_longitude with
          | some plat, some plng =>
            let distance := calculateDistance (lat : ℝ) (lng : ℝ) (plat : ℝ) (plng : ℝ)
            let maxDistance := radiusOr100 proj
            if (maxDistance : ℝ) < distance then
              (Except.error (ApiError.geofenceViolation (jsRound distance) maxDistance), s)
            else checkinAfterGeofence now pid workerId lat lng req s
          | _, _ => checkinAfterGeofence now pid workerId lat lng req s
  | _, _, _ => (Except.error ApiError.missingFields, s)

/-- The `UPDATE checkins SET checkout_time = NOW(), checkout_gps_lat = $1,
checkout_gps_lng = $2, checkout_photo_url = $3, hours_worked = $4,
notes = $5 WHERE id = $6` of `checkins.js` lines 159–170, applied to one
row. -/
def closeRecord (c : CheckinRecord) (now : ℤ) (lat lng : ℚ)
    (photoUrl notes : Option String) (hours : ℚ) : CheckinRecord :=
  { c with
    checkout_time := some now
    checkout_gps_lat := some lat
    checkout_gps_lng := some lng
    checkout_photo_url := jsOrNullStr photoUrl
    hours_worked := some hours
    notes := jsOrNullStr notes }

/-- `POST /checkout` (`checkins.js` lines 118–184): validate the body,
resolve the worker, find the most recent open check-in (404 `noActiveShift`
if none), compute `hoursWorked = (now − checkin_time) / (1000·60·60)` as a
binary64 quotient (`roundB64`) formatted by `toFixed(2)`, and update that
row by id. -/
def checkoutHandler (env : Env) (now : ℤ) (userId : ℕ)
    (req : CheckoutRequest) (s : LedgerState) :
    Except ApiError (CheckinRecord × ℚ) × LedgerState :=
  match req.gpsLat, req.gpsLng with
  | some lat, some lng =>
    if lat = 0 ∨ lng = 0 then (Except.error ApiError.missingFields, s)
    else
      match env.workerOf userId with
      | none => (Except.error ApiError.workerNotFound, s)
      | some workerId =>
        match findActiveCheckin s workerId with
        | none => (Except.error ApiError.noActiveShift, s)
        | some c =>
          let hoursWorked :=
            toFixed2 (roundB64 (((now - c.checkin_time : ℤ) : ℚ) / (1000 * 60 * 60)))
          let closed := closeRecord c now lat lng req.photoUrl req.notes hoursWorked
          (Except.ok (closed, hoursWorked),
            ⟨s.checkins.map (fun r =>
                if r.id = c.id then closeRecord r now lat lng req.photoUrl req.notes hoursWorked
                else r),
              s.nextId⟩)
  | _, _ => (Except.error ApiError.missingFields, s)

/-- Query-string filters of `GET /checkins` (`checkins.js` line 189).
Express query parameters are strings, so a supplied (non-empty) parameter is
always truthy; dates are modelled by their parsed epoch value. -/
structure CheckinsQuery where
  projectId : Option ℕ
  workerId : Option ℕ
  startDate : Option ℤ
  endDate : Option ℤ

/-- The dynamically built `WHERE` clause of `GET /checkins`
(`checkins.js` lines 199–218). -/
def matchesQuery (q : CheckinsQuery) (c : CheckinRecord) : Bool :=
  (match q.projectId with | some p => c.project_id == p | none => true) &&
  (match q.workerId with | some w => c.worker_id == w | none => true) &&
  (match q.startDate with | some t => decide (t ≤ c.checkin_time) | none => true) &&
  (match q.endDate with | some t => decide (c.checkin_time ≤ t) | none => true)

/-- `GET /checkins` (`checkins.js` lines 187–232): a read-only report —
filter (the inner joins on `workers` and `projects` drop rows with dangling
references), order by check-in time descending, `LIMIT 100`.  The ledger
state is returned unchanged. -/
def getCheckinsHandler (env : Env) (q : CheckinsQuery) (s : LedgerState) :
    List CheckinRecord × LedgerState :=
  (((s.checkins.filter (fun c =>
      env.workerExists c.worker_id && (env.projectOf c.project_id).isSome &&
        matchesQuery q c)).mergeSort
      (fun a b => decide (b.checkin_time ≤ a.checkin_time))).take 100, s)

/-- `GET /checkins/active` (`checkins.js` lines 235–270): a read-only query
for the caller's most recent open check-in (joined against `projects`).
The ledger state is returned unchanged. -/
def getActiveHandler (env : Env) (userId : ℕ) (s : LedgerState) :
    Except ApiError (Option CheckinRecord) × LedgerState :=
  match env.workerOf userId with
  | none => (Except.error ApiError.workerNotFound, s)
  | some workerId =>
    ((Except.ok
        ((s.checkins.filter (fun c =>
            c.worker_id == workerId && c.checkout_time.isNone &&
              (env.projectOf c.project_id).isSome)).argmax
          (fun c => c.checkin_time))), s)

/-- The one-open-shift ledger invariant: every worker has at most one
check-in row with `checkout_time` null. -/
def ledgerInvariant (s : LedgerState) : Prop :=
  ∀ w : ℕ, (openShiftsOf s w).length ≤ 1

/-- Ledger states reachable from an empty `checkins` table by sequential
executions of the four route handlers. -/
inductive Reachable : LedgerState → Prop where
  | init : Reachable ⟨[], 1⟩
  | stepCheckin (env : Env) (now : ℤ) (userId : ℕ) (req : CheckinRequest)
      {s : LedgerState} : Reachable s → Reachable (checkinHandler env now userId req s).2
  | stepCheckout (env : Env) (now : ℤ) (userId : ℕ) (req : CheckoutRequest)
      {s : LedgerState} : Reachable s → Reachable (checkoutHandler env now userId req s).2
  | stepGetCheckins (env : Env) (q : CheckinsQuery)
      {s : LedgerState} : Reachable s → Reachable (getCheckinsHandler env q s).2
  | stepGetActive (env : Env) (userId : ℕ)
      {s : LedgerState} : Reachable s → Reachable (getActiveHandler env userId s).2

/-! ### Properties of the distance computation -/

lemma atan2_one_zero : atan2 1 0 = Real.pi / 2 := by
  unfold atan2
  norm_num

/-- Two antipodal points along a meridian: the haversine term is 1 and the
distance is `π` times the Earth radius. -/
lemma calculateDistance_antipodal :
    calculateDistance 90 1 (-90) 1 = 6371000 * Real.pi := by
  have h1 : (90 : ℝ) * Real.pi / 180 = Real.pi / 2 := by ring
  have h2 : (-90 : ℝ) * Real.pi / 180 = -(Real.pi / 2) := by ring
  have h3 : ((-90 : ℝ) - 90) * Real.pi / 180 / 2 = -(Real.pi / 2) := by ring
  have h4 : ((1 : ℝ) - 1) * Real.pi / 180 = 0 := by ring
  simp only [calculateDistance, h1, h2, h3, h4]
  rw [show Real.sin (-(Real.pi / 2)) * Real.sin (-(Real.pi / 2)) +
      Real.cos (Real.pi / 2) * Real.cos (-(Real.pi / 2)) *
        Real.sin (0 / 2) * Real.sin (0 / 2) = 1 by
    simp [Real.sin_neg, Real.cos_pi_div_two]]
  rw [show (1 : ℝ) - 1 = 0 by ring, Real.sqrt_one, Real.sqrt_zero, atan2_one_zero]
  ring

/-! ### Handler-shape lemmas -/

/-- Unfolding of the check-in handler once the request is well-formed and
the worker and project lookups succeed. -/
lemma checkinHandler_eq (env : Env) (now : ℤ) (userId : ℕ) (req : CheckinRequest)
    (s : LedgerState) (pid workerId : ℕ) (lat lng : ℚ) (proj : Project)
    (hpid : req.projectId = some pid) (hlat : req.gpsLat = some lat)
    (hlng : req.gpsLng = some lng) (hv : ¬(pid = 0 ∨ lat = 0 ∨ lng = 0))
    (hw : env.workerOf userId = some workerId) (hp : env.projectOf pid = some proj) :
    checkinHandler env now userId req s =
      match proj.gps_latitude, proj.gps_longitude with
      | some plat, some plng =>
        if ((radiusOr100 proj : ℤ) : ℝ) <
            calculateDistance (lat : ℝ) (lng : ℝ) (plat : ℝ) (plng : ℝ) then
          (Except.error (ApiError.geofenceViolation
            (jsRound (calculateDistance (lat : ℝ) (lng : ℝ) (plat : ℝ) (plng : ℝ)))
            (radiusOr100 proj)), s)
        else checkinAfterGeofence now pid workerId lat lng req s
      | _, _ => checkinAfterGeofence now pid workerId lat lng req s := by
  simp only [checkinHandler, hpid, hlat, hlng, hw, hp, if_neg hv]

/-- Every branch of the check-in handler either leaves the ledger unchanged
or, when the worker had no open shift, appends exactly one new open record
for that worker. -/
lemma checkinHandler_state (env : Env) (now : ℤ) (userId : ℕ) (req : CheckinRequest)
    (s : LedgerState) :
    (checkinHandler env now userId req s).2 = s ∨
      ∃ nc : CheckinRecord, nc.checkout_time = none ∧ openShiftsOf s nc.worker_id = [] ∧
        (checkinHandler env now userId req s).2 = ⟨s.checkins ++ [nc], s.nextId + 1⟩ := by
  have hafter : ∀ pid workerId lat lng,
      (checkinAfterGeofence now pid workerId lat lng req s).2 = s ∨
        ∃ nc : CheckinRecord, nc.checkout_time = none ∧ openShiftsOf s nc.worker_id = [] ∧
          (checkinAfterGeofence now pid workerId lat lng req s).2 =
            ⟨s.checkins ++ [nc], s.nextId + 1⟩ := by
    intro pid workerId lat lng
    unfold checkinAfterGeofence
    cases hshift : openShiftsOf s workerId with
    | cons c t => exact Or.inl rfl
    | nil => exact Or.inr ⟨_, rfl, hshift, rfl⟩
  unfold checkinHandler
  split
  · split
    · exact Or.inl rfl
    · split
      · exact Or.inl rfl
      · split
        · exact Or.inl rfl
        · split
          · dsimp only
            split
            · exact Or.inl rfl
            · exact hafter _ _ _ _
          · exact hafter _ _ _ _
  · exact Or.inl rfl

/-- Every branch of the check-out handler either leaves the ledger unchanged
or maps the row-closing update over the table. -/
lemma checkoutHandler_state (env : Env) (now : ℤ) (userId : ℕ) (req : CheckoutRequest)
    (s : LedgerState) :
    (checkoutHandler env now userId req s).2 = s ∨
      ∃ (c : CheckinRecord) (lat lng : ℚ) (hrs : ℚ),
        (checkoutHandler env now userId req s).2 =
          ⟨s.checkins.map (fun r =>
              if r.id = c.id then closeRecord r now lat lng req.photoUrl req.notes hrs
              else r),
            s.nextId⟩ := by
  unfold checkoutHandler
  split
  · split
    · exact Or.inl rfl
    · split
      · exact Or.inl rfl
      · split
        · exact Or.inl rfl
        · exact Or.inr ⟨_, _, _, _, rfl⟩
  · exact Or.inl rfl

lemma getCheckinsHandler_state (env : Env) (q : CheckinsQuery) (s : LedgerState) :
    (getCheckinsHandler env q s).2 = s := rfl

lemma getActiveHandler_state (env : Env) (userId : ℕ) (s : LedgerState) :
    (getActiveHandler env userId s).2 = s := by
  unfold getActiveHandler
  split <;> rfl

/-! ### Invariant preservation -/

lemma openShiftsOf_append (l : List CheckinRecord) (m : ℕ) (nc : CheckinRecord) (w : ℕ) :
    openShiftsOf ⟨l ++ [nc], m⟩ w =
      openShiftsOf ⟨l, m⟩ w ++
        (if nc.worker_id == w && nc.checkout_time.isNone then [nc] else []) := by
  simp only [openShiftsOf, List.filter_append, List.filter_cons, List.filter_nil]

lemma invariant_append_open (s : LedgerState) (nc : CheckinRecord) (m : ℕ)
    (h : ledgerInvariant s) (hempty : openShiftsOf s nc.worker_id = []) :
    ledgerInvariant ⟨s.checkins ++ [nc], m⟩ := by
  intro w
  have hsplit := openShiftsOf_append s.checkins m nc w
  have hs : openShiftsOf ⟨s.checkins, m⟩ w = openShiftsOf s w := rfl
  rw [hsplit, hs, List.length_append]
  by_cases hw : nc.worker_id = w
  · subst hw
    rw [hempty]
    simp only [List.length_nil, Nat.zero_add]
    split
    · exact le_refl 1
    · exact Nat.zero_le 1
  · have hbeq : (nc.worker_id == w) = false := by simpa using hw
    simp only [hbeq, Bool.false_and, if_neg Bool.false_ne_true, List.length_nil, Nat.add_zero]
    exact h w

lemma length_filter_map_le {α : Type} (l : List α) (f : α → α) (p : α → Bool)
    (h : ∀ x, p (f x) = true → p x = true) :
    ((l.map f).filter p).length ≤ (l.filter p).length := by
  induction l with
  | nil => simp
  | cons a t ih =>
    simp only [List.map_cons, List.filter_cons]
    cases hfa : p (f a) with
    | true =>
      rw [h a hfa]
      simpa using Nat.succ_le_succ ih
    | false =>
      simp only [Bool.false_eq_true, if_false]
      split
      · exact le_trans ih (Nat.le_succ _)
      · exact ih

lemma closeRecord_worker_id (c : CheckinRecord) (now : ℤ) (lat lng : ℚ)
    (photoUrl notes : Option String) (hours : ℚ) :
    (closeRecord c now lat lng photoUrl notes hours).worker_id = c.worker_id := rfl

lemma closeRecord_checkout_time (c : CheckinRecord) (now : ℤ) (lat lng : ℚ)
    (photoUrl notes : Option String) (hours : ℚ) :
    (closeRecord c now lat lng photoUrl notes hours).checkout_time = some now := rfl

lemma invariant_map_close (s : LedgerState) (cid : ℕ) (now : ℤ) (lat lng : ℚ)
    (photoUrl notes : Option String) (hrs : ℚ) (m : ℕ) (h : ledgerInvariant s) :
    ledgerInvariant ⟨s.checkins.map (fun r =>
        if r.id = cid then closeRecord r now lat lng photoUrl notes hrs else r), m⟩ := by
  intro w
  have hle := length_filter_map_le s.checkins
    (fun r => if r.id = cid then closeRecord r now lat lng photoUrl notes hrs else r)
    (fun c => c.worker_id == w && c.checkout_time.isNone) ?_
  · exact le_trans hle (h w)
  · intro r hr
    dsimp only at hr ⊢
    by_cases hid : r.id = cid
    · rw [if_pos hid] at hr
      simp [closeRecord] at hr
    · rwa [if_neg hid] at hr

lemma reachable_invariant {s : LedgerState} (h : Reachable s) : ledgerInvariant s := by
  induction h with
  | init => intro w; simp [openShiftsOf]
  | stepCheckin env now userId req hr ih =>
    rcases checkinHandler_state env now userId req _ with heq | ⟨nc, _, hempty, heq⟩
    · rwa [heq]
    · rw [heq]
      exact invariant_append_open _ nc _ ih hempty
  | stepCheckout env now userId req hr ih =>
    rcases checkoutHandler_state env now userId req _ with heq | ⟨c, lat, lng, hrs, heq⟩
    · rwa [heq]
    · rw [heq]
      exact invariant_map_close _ c.id now lat lng req.photoUrl req.notes hrs _ ih
  | stepGetCheckins env q hr ih =>
    rwa [getCheckinsHandler_state]
  | stepGetActive env userId hr ih =>
    rwa [getActiveHandler_state]

/-! ### Concrete environments, requests and states used by the witnesses -/

def envC1 : Env :=
  ⟨fun uid => if uid = 1 then some 7 else none,
    fun pid => if pid = 2 then some ⟨none, none, some 100⟩ else none,
    fun w => w == 7⟩

def reqC1 : CheckinRequest := ⟨some 2, some 30, some (-97), none, none⟩

def envC7 : Env :=
  ⟨fun uid => if uid = 1 then some 7 else none,
    fun pid => if pid = 2 then some ⟨none, none, none⟩ else none,
    fun _ => false⟩

def envC8 : Env :=
  ⟨fun uid => if uid = 1 then some 7 else none, fun _ => none, fun _ => false⟩

def envC10 : Env :=
  ⟨fun uid => if uid = 1 then some 7 else none, fun _ => none, fun _ => false⟩

/-! ### The claims -/

/-- C1: at every ledger state reachable by sequential executions of the
subsystem's operations, every worker has at most one open shift (a
`checkins` row with `checkout_time` null), and the list and active queries
leave the ledger unchanged. -/
theorem one_open_shift_invariant (s : LedgerState) (h : Reachable s) :
    ledgerInvariant s ∧
      (∀ (env : Env) (q : CheckinsQuery), (getCheckinsHandler env q s).2 = s) ∧
      (∀ (env : Env) (userId : ℕ), (getActiveHandler env userId s).2 = s) :=
  ⟨reachable_invariant h,
    fun env q => getCheckinsHandler_state env q s,
    fun env userId => getActiveHandler_state env userId s⟩

/-- C1 witness: the invariant at the state reached by one successful
check-in from the empty ledger. -/
theorem one_open_shift_invariant_witness :
    ledgerInvariant (checkinHandler envC1 0 1 reqC1 ⟨[], 1⟩).2 :=
  (one_open_shift_invariant _
    (Reachable.stepCheckin envC1 0 1 reqC1 Reachable.init)).1

/-- C7: a site whose project row has no registered coordinate admits every
reported coordinate — the check-in handler can never answer with a geofence
violation for such a site. -/
theorem no_coordinate_site_admits_all (env : Env) (now : ℤ) (userId : ℕ)
    (req : CheckinRequest) (s : LedgerState) (pid : ℕ) (proj : Project)
    (hpid : req.projectId = some pid) (hp : env.projectOf pid = some proj)
    (hplat : proj.gps_latitude = none) (hplng : proj.gps_longitude = none)
    (d r : ℤ) :
    (checkinHandler env now userId req s).1 ≠
      Except.error (ApiError.geofenceViolation d r) := by
  obtain ⟨pj, la, ln, ph, sc⟩ := req
  dsimp only at hpid
  subst hpid
  cases la with
  | none => simp [checkinHandler]
  | some lat =>
    cases ln with
    | none => simp [checkinHandler]
    | some lng =>
      by_cases hv : pid = 0 ∨ lat = 0 ∨ lng = 0
      · simp [checkinHandler, hv]
      · cases hwk : env.workerOf userId with
        | none => simp [checkinHandler, hv, hwk]
        | some workerId =>
          rw [checkinHandler_eq env now userId ⟨some pid, some lat, some lng, ph, sc⟩
            s pid workerId lat lng proj rfl rfl rfl hv hwk hp, hplat, hplng]
          cases hshift : openShiftsOf s workerId <;>
            simp [checkinAfterGeofence, hshift]

/-- C7 witness: a concrete check-in against a site without a registered
coordinate is not answered with a geofence violation. -/
theorem no_coordinate_site_admits_all_witness :
    (checkinHandler envC7 0 1 ⟨some 2, some 123, some 45, none, none⟩ ⟨[], 1⟩).1 ≠
      Except.error (ApiError.geofenceViolation 500 100) :=
  no_coordinate_site_admits_all envC7 0 1 _ _ 2 ⟨none, none, none⟩
    rfl rfl rfl rfl 500 100

/-- C8: a well-formed checkout for a worker with no open shift fails with
`noActiveShift` (404 "No active check-in found") and leaves the ledger
unchanged. -/
theorem no_active_shift_checkout (env : Env) (now : ℤ) (userId : ℕ)
    (req : CheckoutRequest) (s : LedgerState) (lat lng : ℚ) (workerId : ℕ)
    (hlat : req.gpsLat = some lat) (hlng : req.gpsLng = some lng)
    (hv : ¬(lat = 0 ∨ lng = 0))
    (hw : env.workerOf userId = some workerId)
    (hopen : openShiftsOf s workerId = []) :
    checkoutHandler env now userId req s = (Except.error ApiError.noActiveShift, s) := by
  have hfind : findActiveCheckin s workerId = none := by
    rw [findActiveCheckin, hopen, List.argmax_nil]
  simp only [checkoutHandler, hlat, hlng, if_neg hv, hw, hfind]

/-- C8 witness: a concrete checkout with an empty ledger. -/
theorem no_active_shift_checkout_witness :
    checkoutHandler envC8 0 1 ⟨some 30, some (-97), none, none⟩ ⟨[], 1⟩ =
      (Except.error ApiError.noActiveShift, ⟨[], 1⟩) :=
  no_active_shift_checkout envC8 0 1 _ _ 30 (-97) 7 rfl rfl (by decide) rfl rfl

/-- C10: a check-in or checkout request whose reported latitude or longitude
is the JSON number 0 is falsy under JavaScript truthiness, so the handler
rejects it with the missing-required-fields 400 error for every environment
and every ledger state (hence before any geofence evaluation or ledger
access). -/
theorem zero_coordinate_rejected (env : Env) (now : ℤ) (userId : ℕ)
    (req : CheckinRequest) (coreq : CheckoutRequest) (s : LedgerState)
    (h1 : req.gpsLat = some 0 ∨ req.gpsLng = some 0)
    (h2 : coreq.gpsLat = some 0 ∨ coreq.gpsLng = some 0) :
    checkinHandler env now userId req s = (Except.error ApiError.missingFields, s) ∧
      checkoutHandler env now userId coreq s = (Except.error ApiError.missingFields, s) := by
  constructor
  · obtain ⟨pj, la, ln, ph, sc⟩ := req
    dsimp only at h1
    rcases h1 with h | h
    · subst h
      cases pj <;> cases ln <;> simp [checkinHandler]
    · subst h
      cases pj <;> cases la <;> simp [checkinHandler]
  · obtain ⟨la, ln, ph, nt⟩ := coreq
    dsimp only at h2
    rcases h2 with h | h
    · subst h
      cases ln <;> simp [checkoutHandler]
    · subst h
      cases la <;> simp [checkoutHandler]

/-- C10 witness: concrete requests reporting latitude 0 (check-in) and
longitude 0 (checkout). -/
theorem zero_coordinate_rejected_witness :
    checkinHandler envC10 0 1 ⟨some 2, some 0, some 10, none, none⟩ ⟨[], 1⟩ =
        (Except.error ApiError.missingFields, ⟨[], 1⟩) ∧
      checkoutHandler envC10 0 1 ⟨some 10, some 0, none, none⟩ ⟨[], 1⟩ =
        (Except.error ApiError.missingFields, ⟨[], 1⟩) :=
  zero_coordinate_rejected envC10 0 1 _ _ _ (Or.inl rfl) (Or.inr rfl)

/-! ### C2 and C3: geofencing and the conflict check -/

/-- The geofence admits the reported coordinate: either the project has no
registered coordinate or the haversine distance is within the allowed
radius (inclusive). -/
def GeofencePasses (proj : Project) (lat lng : ℚ) : Prop :=
  match proj.gps_latitude, proj.gps_longitude with
  | some plat, some plng =>
    calculateDistance (lat : ℝ) (lng : ℝ) (plat : ℝ) (plng : ℝ) ≤
      ((radiusOr100 proj : ℤ) : ℝ)
  | _, _ => True

lemma checkinAfterGeofence_conflict (now : ℤ) (pid workerId : ℕ) (lat lng : ℚ)
    (req : CheckinRequest) (s : LedgerState) (c : CheckinRecord)
    (rest : List CheckinRecord) (hopen : openShiftsOf s workerId = c :: rest) :
    checkinAfterGeofence now pid workerId lat lng req s =
      (Except.error (ApiError.alreadyCheckedIn c.id), s) := by
  unfold checkinAfterGeofence
  rw [hopen]

lemma checkinAfterGeofence_not_geofence (now : ℤ) (pid workerId : ℕ) (lat lng : ℚ)
    (req : CheckinRequest) (s : LedgerState) (d r : ℤ) :
    (checkinAfterGeofence now pid workerId lat lng req s).1 ≠
      Except.error (ApiError.geofenceViolation d r) := by
  unfold checkinAfterGeofence
  cases h : openShiftsOf s workerId <;> simp

/-- A well-formed check-in against a site with a registered coordinate whose
distance strictly exceeds the allowed radius is rejected with the 403
geofence error, leaving the ledger unchanged. -/
lemma checkinHandler_geofence_reject (env : Env) (now : ℤ) (userId : ℕ)
    (req : CheckinRequest) (s : LedgerState) (pid workerId : ℕ)
    (lat lng plat plng : ℚ) (proj : Project)
    (hpid : req.projectId = some pid) (hlat : req.gpsLat = some lat)
    (hlng : req.gpsLng = some lng) (hv : ¬(pid = 0 ∨ lat = 0 ∨ lng = 0))
    (hw : env.workerOf userId = some workerId) (hp : env.projectOf pid = some proj)
    (hplat : proj.gps_latitude = some plat) (hplng : proj.gps_longitude = some plng)
    (hd : ((radiusOr100 proj : ℤ) : ℝ) <
      calculateDistance (lat : ℝ) (lng : ℝ) (plat : ℝ) (plng : ℝ)) :
    checkinHandler env now userId req s =
      (Except.error (ApiError.geofenceViolation
        (jsRound (calculateDistance (lat : ℝ) (lng : ℝ) (plat : ℝ) (plng : ℝ)))
        (radiusOr100 proj)), s) := by
  rw [checkinHandler_eq env now userId req s pid workerId lat lng proj
    hpid hlat hlng hv hw hp]
  simp only [hplat, hplng]
  rw [if_pos hd]

/-- A well-formed check-in whose reported coordinate passes the geofence
falls through to the conflict check and the insert. -/
lemma checkinHandler_geofence_pass (env : Env) (now : ℤ) (userId : ℕ)
    (req : CheckinRequest) (s : LedgerState) (pid workerId : ℕ)
    (lat lng : ℚ) (proj : Project)
    (hpid : req.projectId = some pid) (hlat : req.gpsLat = some lat)
    (hlng : req.gpsLng = some lng) (hv : ¬(pid = 0 ∨ lat = 0 ∨ lng = 0))
    (hw : env.workerOf userId = some workerId) (hp : env.projectOf pid = some proj)
    (hg : GeofencePasses proj lat lng) :
    checkinHandler env now userId req s =
      checkinAfterGeofence now pid workerId lat lng req s := by
  rw [checkinHandler_eq env now userId req s pid workerId lat lng proj
    hpid hlat hlng hv hw hp]
  unfold GeofencePasses at hg
  rcases hplat : proj.gps_latitude with _ | plat
  · rfl
  · rcases hplng : proj.gps_longitude with _ | plng
    · rfl
    · rw [hplat, hplng] at hg
      simp only at hg ⊢
      rw [if_neg (not_lt.mpr hg)]

/-- C3 amended: a check-in that passes validation, worker and project
resolution and the geofence check, issued while the worker already has an
open shift, fails with 409 `alreadyCheckedIn` carrying the identifier of
the existing open shift, and creates no new record. -/
theorem already_checked_in_conflict (env : Env) (now : ℤ) (userId : ℕ)
    (req : CheckinRequest) (s : LedgerState) (pid workerId : ℕ) (lat lng : ℚ)
    (proj : Project) (c : CheckinRecord) (rest : List CheckinRecord)
    (hpid : req.projectId = some pid) (hlat : req.gpsLat = some lat)
    (hlng : req.gpsLng = some lng) (hv : ¬(pid = 0 ∨ lat = 0 ∨ lng = 0))
    (hw : env.workerOf userId = some workerId) (hp : env.projectOf pid = some proj)
    (hg : GeofencePasses proj lat lng)
    (hopen : openShiftsOf s workerId = c :: rest) :
    checkinHandler env now userId req s =
      (Except.error (ApiError.alreadyCheckedIn c.id), s) := by
  rw [checkinHandler_geofence_pass env now userId req s pid workerId lat lng proj
    hpid hlat hlng hv hw hp hg]
  exact checkinAfterGeofence_conflict now pid workerId lat lng req s c rest hopen

def envC3 : Env :=
  ⟨fun uid => if uid = 1 then some 7 else none,
    fun pid => if pid = 2 then some ⟨some (-90), some 1, some 100⟩ else none,
    fun _ => false⟩

def openRecC3 : CheckinRecord :=
  ⟨5, 7, 2, 0, none, 30, -97, none, none, none, none, false, none, none⟩

def envC3w : Env :=
  ⟨fun uid => if uid = 1 then some 7 else none,
    fun pid => if pid = 2 then some ⟨none, none, none⟩ else none,
    fun _ => false⟩

/-- C3 witness: a second check-in for worker 7, against a site without a
geofence, fails with `alreadyCheckedIn` carrying the open shift's id 5 and
leaves the ledger unchanged. -/
theorem already_checked_in_conflict_witness :
    checkinHandler envC3w 0 1 ⟨some 2, some 30, some (-97), none, none⟩
        ⟨[openRecC3], 6⟩ =
      (Except.error (ApiError.alreadyCheckedIn 5), ⟨[openRecC3], 6⟩) :=
  already_checked_in_conflict envC3w 0 1 _ _ 2 7 30 (-97) ⟨none, none, none⟩
    openRecC3 [] rfl rfl rfl (by decide) rfl rfl trivial (by decide)

lemma distC3 :
    calculateDistance ((90 : ℚ) : ℝ) ((1 : ℚ) : ℝ) (((-90 : ℚ)) : ℝ) ((1 : ℚ) : ℝ) =
      6371000 * Real.pi := by
  norm_num [calculateDistance_antipodal]

lemma distC3_gt_100 :
    ((100 : ℤ) : ℝ) <
      calculateDistance ((90 : ℚ) : ℝ) ((1 : ℚ) : ℝ) (((-90 : ℚ)) : ℝ) ((1 : ℚ) : ℝ) := by
  rw [distC3]
  have h := Real.pi_gt_three
  norm_num
  nlinarith

/-- C3 counterexample: worker 7 has the open shift 5, but a check-in
reported from outside the geofence fails with the 403 geofence error, not
with `alreadyCheckedIn 5` — the geofence check runs before the conflict
check. -/
theorem already_checked_in_conflict_counterexample :
    (checkinHandler envC3 0 1 ⟨some 2, some 90, some 1, none, none⟩
        ⟨[openRecC3], 6⟩).1 =
      Except.error (ApiError.geofenceViolation (jsRound (6371000 * Real.pi)) 100) ∧
    (checkinHandler envC3 0 1 ⟨some 2, some 90, some 1, none, none⟩
        ⟨[openRecC3], 6⟩).1 ≠
      Except.error (ApiError.alreadyCheckedIn 5) := by
  have heq := checkinHandler_geofence_reject envC3 0 1
    ⟨some 2, some 90, some 1, none, none⟩ ⟨[openRecC3], 6⟩ 2 7 90 1 (-90) 1
    ⟨some (-90), some 1, some 100⟩ rfl rfl rfl (by decide) rfl rfl rfl rfl distC3_gt_100
  rw [heq, distC3]
  exact ⟨rfl, by simp⟩

/-- C2: for a well-formed check-in against a site with a registered
coordinate and a positive radius `R`, the reported coordinate is admitted
exactly when its haversine distance is at most `R` (the boundary is
inclusive); a strictly greater distance is rejected with the geofence
error carrying the rounded computed distance and `R`. -/
theorem geofence_boundary_inclusive (env : Env) (now : ℤ) (userId : ℕ)
    (req : CheckinRequest) (s : LedgerState) (pid workerId : ℕ)
    (lat lng plat plng : ℚ) (proj : Project) (R : ℤ)
    (hpid : req.projectId = some pid) (hlat : req.gpsLat = some lat)
    (hlng : req.gpsLng = some lng) (hv : ¬(pid = 0 ∨ lat = 0 ∨ lng = 0))
    (hw : env.workerOf userId = some workerId) (hp : env.projectOf pid = some proj)
    (hplat : proj.gps_latitude = some plat) (hplng : proj.gps_longitude = some plng)
    (hR : proj.geofence_radius_meters = some R) (hRpos : 0 < R) :
    (((R : ℤ) : ℝ) < calculateDistance (lat : ℝ) (lng : ℝ) (plat : ℝ) (plng : ℝ) →
      checkinHandler env now userId req s =
        (Except.error (ApiError.geofenceViolation
          (jsRound (calculateDistance (lat : ℝ) (lng : ℝ) (plat : ℝ) (plng : ℝ))) R), s)) ∧
    (calculateDistance (lat : ℝ) (lng : ℝ) (plat : ℝ) (plng : ℝ) ≤ ((R : ℤ) : ℝ) →
      ∀ d r, (checkinHandler env now userId req s).1 ≠
        Except.error (ApiError.geofenceViolation d r)) := by
  have hrad : radiusOr100 proj = R := by
    simp [radiusOr100, hR, hRpos.ne']
  constructor
  · intro hd
    have h := checkinHandler_geofence_reject env now userId req s pid workerId
      lat lng plat plng proj hpid hlat hlng hv hw hp hplat hplng (by rw [hrad]; exact hd)
    rw [h, hrad]
  · intro hd d r
    have hg : GeofencePasses proj lat lng := by
      unfold GeofencePasses
      rw [hplat, hplng]
      simp only
      rw [hrad]
      exact hd
    rw [checkinHandler_geofence_pass env now userId req s pid workerId lat lng proj
      hpid hlat hlng hv hw hp hg]
    exact checkinAfterGeofence_not_geofence now pid workerId lat lng req s d r

def envC2 : Env :=
  ⟨fun uid => if uid = 1 then some 7 else none,
    fun pid => if pid = 2 then some ⟨some (-90), some 1, some 100⟩ else none,
    fun _ => false⟩

/-- C2 witness: a reported coordinate at distance `6371000·π` meters from a
site with radius 100 is rejected with the geofence error carrying the
rounded distance and the radius. -/
theorem geofence_boundary_inclusive_witness :
    ((100 : ℤ) : ℝ) <
        calculateDistance ((90 : ℚ) : ℝ) ((1 : ℚ) : ℝ) (((-90 : ℚ)) : ℝ) ((1 : ℚ) : ℝ) ∧
      checkinHandler envC2 0 1 ⟨some 2, some 90, some 1, none, none⟩ ⟨[], 1⟩ =
        (Except.error (ApiError.geofenceViolation
          (jsRound (calculateDistance ((90 : ℚ) : ℝ) ((1 : ℚ) : ℝ)
            (((-90 : ℚ)) : ℝ) ((1 : ℚ) : ℝ))) 100), ⟨[], 1⟩) := by
  refine ⟨distC3_gt_100, ?_⟩
  exact (geofence_boundary_inclusive envC2 0 1 _ _ 2 7 90 1 (-90) 1
    ⟨some (-90), some 1, some 100⟩ 100 rfl rfl rfl (by decide) rfl rfl rfl rfl rfl
    (by norm_num)).1 distC3_gt_100

/-! ### C4, C6, C9: checkout accounting, lateness, frame effect -/

/-- `floorLog2` is the integer `e` with `2^e ≤ q < 2^(e+1)`. -/
lemma floorLog2_spec {q : ℚ} (hq : 0 < q) :
    (2 : ℚ) ^ floorLog2 q ≤ q ∧ q < 2 ^ (floorLog2 q + 1) := by
  have hnum : 0 < q.num := Rat.num_pos.mpr hq
  have ha0 : q.num.toNat ≠ 0 := by omega
  have hb0 : q.den ≠ 0 := q.den_nz
  have hXpos : (0 : ℚ) < (q.num.toNat : ℚ) := by
    exact_mod_cast Nat.pos_of_ne_zero ha0
  have hBpos : (0 : ℚ) < (q.den : ℚ) := by
    exact_mod_cast Nat.pos_of_ne_zero hb0
  have hA1 : ((2 : ℚ) ^ Nat.log 2 q.num.toNat) ≤ (q.num.toNat : ℚ) := by
    exact_mod_cast Nat.pow_log_le_self 2 ha0
  have hA2 : ((q.num.toNat : ℚ)) < 2 ^ (Nat.log 2 q.num.toNat + 1) := by
    exact_mod_cast Nat.lt_pow_succ_log_self (by norm_num) q.num.toNat
  have hB1 : ((2 : ℚ) ^ Nat.log 2 q.den) ≤ (q.den : ℚ) := by
    exact_mod_cast Nat.pow_log_le_self 2 hb0
  have hB2 : ((q.den : ℚ)) < 2 ^ (Nat.log 2 q.den + 1) := by
    exact_mod_cast Nat.lt_pow_succ_log_self (by norm_num) q.den
  have hq_eq : ((q.num.toNat : ℚ)) / ((q.den : ℚ)) = q := by
    rw [show ((q.num.toNat : ℚ)) = ((q.num : ℤ) : ℚ) by
      exact_mod_cast congrArg (fun n : ℤ => ((n : ℤ) : ℚ))
        (Int.toNat_of_nonneg hnum.le)]
    exact Rat.num_div_den q
  have hpow : ∀ n : ℕ, (2 : ℚ) ^ (n : ℤ) = 2 ^ n := fun n => zpow_natCast 2 n
  have hup : q < 2 ^ (((Nat.log 2 q.num.toNat : ℤ) - (Nat.log 2 q.den : ℤ)) + 1) := by
    conv_lhs => rw [← hq_eq]
    rw [show ((Nat.log 2 q.num.toNat : ℤ) - (Nat.log 2 q.den : ℤ)) + 1 =
      ((Nat.log 2 q.num.toNat + 1 : ℕ) : ℤ) - ((Nat.log 2 q.den : ℕ) : ℤ) by push_cast; ring,
      zpow_sub₀ (two_ne_zero), hpow, hpow]
    rw [div_lt_div_iff₀ hBpos (by positivity)]
    calc (q.num.toNat : ℚ) * 2 ^ Nat.log 2 q.den
        < 2 ^ (Nat.log 2 q.num.toNat + 1) * 2 ^ Nat.log 2 q.den := by
          exact mul_lt_mul_of_pos_right hA2 (by positivity)
      _ ≤ 2 ^ (Nat.log 2 q.num.toNat + 1) * (q.den : ℚ) := by
          exact mul_le_mul_of_nonneg_left hB1 (by positivity)
  have hlow : (2 : ℚ) ^ (((Nat.log 2 q.num.toNat : ℤ) - (Nat.log 2 q.den : ℤ)) - 1) < q := by
    conv_rhs => rw [← hq_eq]
    rw [show ((Nat.log 2 q.num.toNat : ℤ) - (Nat.log 2 q.den : ℤ)) - 1 =
      ((Nat.log 2 q.num.toNat : ℕ) : ℤ) - ((Nat.log 2 q.den + 1 : ℕ) : ℤ) by push_cast; ring,
      zpow_sub₀ (two_ne_zero), hpow, hpow]
    rw [div_lt_div_iff₀ (by positivity) hBpos]
    calc (2 : ℚ) ^ Nat.log 2 q.num.toNat * (q.den : ℚ)
        ≤ (q.num.toNat : ℚ) * (q.den : ℚ) := by
          exact mul_le_mul_of_nonneg_right hA1 hBpos.le
      _ < (q.num.toNat : ℚ) * 2 ^ (Nat.log 2 q.den + 1) := by
          exact mul_lt_mul_of_pos_left hB2 hXpos
  unfold floorLog2
  by_cases hcase :
      (2 : ℚ) ^ ((Nat.log 2 q.num.toNat : ℤ) - (Nat.log 2 q.den : ℤ)) ≤ q
  · rw [if_pos hcase]
    exact ⟨hcase, hup⟩
  · rw [if_neg hcase]
    refine ⟨hlow.le, ?_⟩
    rw [sub_add_cancel]
    exact lt_of_not_le hcase

/-- `floorLog2` is uniquely determined by the sandwich `2^e ≤ q < 2^(e+1)`. -/
lemma floorLog2_eq {q : ℚ} {e : ℤ} (hq : 0 < q) (h1 : 2 ^ e ≤ q)
    (h2 : q < 2 ^ (e + 1)) : floorLog2 q = e := by
  obtain ⟨hl, hu⟩ := floorLog2_spec hq
  by_contra hne
  rcases lt_or_gt_of_ne hne with h | h
  · have hle : (2 : ℚ) ^ (floorLog2 q + 1) ≤ 2 ^ e :=
      zpow_le_zpow_right₀ one_le_two (by omega)
    linarith
  · have hle : (2 : ℚ) ^ (e + 1) ≤ 2 ^ floorLog2 q :=
      zpow_le_zpow_right₀ one_le_two (by omega)
    linarith

/-- Evaluation rule for `roundB64` on a positive rational, given its binary
exponent. -/
lemma roundB64_eval {q : ℚ} {e : ℤ} (hq : 0 < q) (h1 : 2 ^ e ≤ q)
    (h2 : q < 2 ^ (e + 1)) :
    roundB64 q = ((roundHalfEven (q * 2 ^ (52 - e)) : ℤ) : ℚ) * 2 ^ (e - 52) := by
  unfold roundB64 roundB64pos
  rw [if_neg hq.ne', if_pos hq, floorLog2_eq hq h1 h2]

/-- `2.5` is exactly representable in binary64, so the quotient at elapsed
9,000,000 ms is exact. -/
lemma roundB64_two_and_half : roundB64 (5 / 2) = 5 / 2 := by
  rw [roundB64_eval (e := 1) (by norm_num) (by norm_num) (by norm_num)]
  norm_num [roundHalfEven]

/-- The binary64 value of `54000 / 3600000`: the exact quotient `0.015` is
not representable, and the nearest double lies strictly below it. -/
lemma roundB64_fifteen_thousandths :
    roundB64 (3 / 200) = 1080863910568919 / 72057594037927936 := by
  rw [roundB64_eval (e := -7) (by norm_num) (by norm_num) (by norm_num)]
  norm_num [roundHalfEven]

/-- The hours value carried by a successful checkout response. -/
def returnedHours (r : Except ApiError (CheckinRecord × ℚ)) : Option ℚ :=
  match r with
  | Except.ok p => some p.2
  | Except.error _ => none

/-- Shape of a successful checkout: the request was well-formed, the worker
resolved, an open shift was found, the response is the closed record with
the rounded hours, and the new ledger maps the closing update over the
table. -/
lemma checkoutHandler_ok (env : Env) (now : ℤ) (userId : ℕ) (req : CheckoutRequest)
    (s : LedgerState) (res : CheckinRecord × ℚ) (st : LedgerState)
    (hsucc : checkoutHandler env now userId req s = (Except.ok res, st)) :
    ∃ lat lng workerId c,
      req.gpsLat = some lat ∧ req.gpsLng = some lng ∧
      env.workerOf userId = some workerId ∧ findActiveCheckin s workerId = some c ∧
      res = (closeRecord c now lat lng req.photoUrl req.notes
          (toFixed2 (roundB64 (((now - c.checkin_time : ℤ) : ℚ) / (1000 * 60 * 60)))),
        toFixed2 (roundB64 (((now - c.checkin_time : ℤ) : ℚ) / (1000 * 60 * 60)))) ∧
      st = ⟨s.checkins.map (fun x =>
          if x.id = c.id then closeRecord x now lat lng req.photoUrl req.notes
            (toFixed2 (roundB64 (((now - c.checkin_time : ℤ) : ℚ) / (1000 * 60 * 60))))
          else x),
        s.nextId⟩ := by
  obtain ⟨la, ln, ph, nt⟩ := req
  cases la with
  | none => simp [checkoutHandler] at hsucc
  | some lat =>
    cases ln with
    | none => simp [checkoutHandler] at hsucc
    | some lng =>
      by_cases hv : lat = 0 ∨ lng = 0
      · simp [checkoutHandler, hv] at hsucc
      · cases hwk : env.workerOf userId with
        | none => simp [checkoutHandler, hv, hwk] at hsucc
        | some workerId =>
          cases hfind : findActiveCheckin s workerId with
          | none => simp [checkoutHandler, hv, hwk, hfind] at hsucc
          | some c =>
            simp only [checkoutHandler, hwk, hfind] at hsucc
            rw [if_neg hv] at hsucc
            refine ⟨lat, lng, workerId, c, rfl, rfl, rfl, hfind, ?_, ?_⟩
            · exact (Except.ok.inj (congrArg Prod.fst hsucc)).symm
            · exact (congrArg Prod.snd hsucc).symm

/-- C4 amended: a successful checkout returns, and records on the closed
row, `hoursWorked` equal to `toFixed(2)` — rounding to two decimals, half
toward positive infinity — applied to the IEEE binary64 quotient of the
elapsed milliseconds by 3,600,000.  When that quotient is exactly
representable (as in the 2h30m scenario) this coincides with half-up
rounding of the exact elapsed hours; at a non-representable tie such as
elapsed 54000 ms it does not. -/
theorem checkout_hours_rounding (env : Env) (now : ℤ) (userId : ℕ)
    (req : CheckoutRequest) (s : LedgerState) (lat lng : ℚ) (workerId : ℕ)
    (c : CheckinRecord)
    (hlat : req.gpsLat = some lat) (hlng : req.gpsLng = some lng)
    (hv : ¬(lat = 0 ∨ lng = 0)) (hw : env.workerOf userId = some workerId)
    (hfind : findActiveCheckin s workerId = some c) :
    returnedHours (checkoutHandler env now userId req s).1 =
        some (toFixed2 (roundB64 (((now - c.checkin_time : ℤ) : ℚ) / (1000 * 60 * 60)))) ∧
      (∀ r hrs, (checkoutHandler env now userId req s).1 = Except.ok (r, hrs) →
        r.hours_worked = some hrs) ∧
      (∀ rec ∈ (checkoutHandler env now userId req s).2.checkins, rec.id = c.id →
        rec.hours_worked =
          some (toFixed2 (roundB64 (((now - c.checkin_time : ℤ) : ℚ) / (1000 * 60 * 60))))) := by
  have heq : checkoutHandler env now userId req s =
      (Except.ok (closeRecord c now lat lng req.photoUrl req.notes
          (toFixed2 (roundB64 (((now - c.checkin_time : ℤ) : ℚ) / (1000 * 60 * 60)))),
        toFixed2 (roundB64 (((now - c.checkin_time : ℤ) : ℚ) / (1000 * 60 * 60)))),
        ⟨s.checkins.map (fun x =>
            if x.id = c.id then closeRecord x now lat lng req.photoUrl req.notes
              (toFixed2 (roundB64 (((now - c.checkin_time : ℤ) : ℚ) / (1000 * 60 * 60))))
            else x),
          s.nextId⟩) := by
    simp only [checkoutHandler, hlat, hlng, if_neg hv, hw, hfind]
  rw [heq]
  refine ⟨rfl, ?_, ?_⟩
  · intro r hrs hok
    have h1 : closeRecord c now lat lng req.photoUrl req.notes
        (toFixed2 (roundB64 (((now - c.checkin_time : ℤ) : ℚ) / (1000 * 60 * 60)))) = r ∧
        toFixed2 (roundB64 (((now - c.checkin_time : ℤ) : ℚ) / (1000 * 60 * 60))) = hrs := by
      simpa using hok
    rw [← h1.1, ← h1.2]
    rfl
  · intro rec hrec hid
    simp only [List.mem_map] at hrec
    obtain ⟨x, hx, rfl⟩ := hrec
    by_cases hxid : x.id = c.id
    · rw [if_pos hxid]
      rfl
    · rw [if_neg hxid] at hid ⊢
      exact absurd hid hxid

def envC4 : Env :=
  ⟨fun uid => if uid = 1 then some 7 else none, fun _ => none, fun _ => false⟩

def openRecC4 : CheckinRecord :=
  ⟨5, 7, 2, 0, none, 30, -97, none, none, none, none, false, none, none⟩

/-- C4 witness: check-in at time 0, checkout at 9,000,000 ms (= 2h30m)
later returns hours `2.50` — the quotient `2.5` is exactly representable,
so the double pipeline agrees with half-up rounding of the exact value. -/
theorem checkout_hours_rounding_witness :
    returnedHours (checkoutHandler envC4 9000000 1 ⟨some 30, some (-97), none, none⟩
        ⟨[openRecC4], 6⟩).1 = some (5 / 2) ∧
      toFixed2 (roundB64 ((9000000 : ℚ) / (1000 * 60 * 60))) = 5 / 2 := by
  have h := (checkout_hours_rounding envC4 9000000 1 ⟨some 30, some (-97), none, none⟩
    ⟨[openRecC4], 6⟩ 30 (-97) 7 openRecC4 rfl rfl (by decide) rfl (by decide)).1
  rw [h]
  have harg : ((9000000 - openRecC4.checkin_time : ℤ) : ℚ) / (1000 * 60 * 60) = 5 / 2 := by
    norm_num [openRecC4]
  have harg2 : (9000000 : ℚ) / (1000 * 60 * 60) = 5 / 2 := by norm_num
  have htf : toFixed2 (5 / 2) = 5 / 2 := by norm_num [toFixed2]
  rw [harg, harg2, roundB64_two_and_half, htf]
  exact ⟨rfl, rfl⟩

/-- C4 counterexample: check-in at time 0, checkout at 54,000 ms.  The
exact elapsed hours are `0.015`, whose half-up rounding is `0.02`; but the
binary64 quotient lies strictly below `0.015`, so the program records and
returns `0.01`. -/
theorem checkout_hours_half_up_counterexample :
    returnedHours (checkoutHandler envC4 54000 1 ⟨some 30, some (-97), none, none⟩
        ⟨[openRecC4], 6⟩).1 = some (1 / 100) ∧
      toFixed2 ((54000 : ℚ) / (1000 * 60 * 60)) = 2 / 100 ∧
      (1 / 100 : ℚ) ≠ 2 / 100 := by
  have hwk : envC4.workerOf 1 = some 7 := rfl
  have hfind : findActiveCheckin ⟨[openRecC4], 6⟩ 7 = some openRecC4 := by decide
  have harg : ((54000 - openRecC4.checkin_time : ℤ) : ℚ) / (1000 * 60 * 60) = 3 / 200 := by
    norm_num [openRecC4]
  refine ⟨?_, by norm_num [toFixed2], by norm_num⟩
  simp only [checkoutHandler, hwk, hfind]
  rw [if_neg (by decide : ¬((30 : ℚ) = 0 ∨ (-97 : ℚ) = 0))]
  simp only [returnedHours]
  rw [harg, roundB64_fifteen_thousandths]
  norm_num [toFixed2]

/-- Shape of a successful check-in response: the created record's `is_late`
is the strict comparison of the current time against the supplied
`scheduledTime`, and `false` when none was supplied. -/
lemma checkinAfterGeofence_ok_is_late (now : ℤ) (pid workerId : ℕ) (lat lng : ℚ)
    (req : CheckinRequest) (s : LedgerState) (r : CheckinRecord)
    (hsucc : (checkinAfterGeofence now pid workerId lat lng req s).1 = Except.ok r) :
    r.is_late = (match req.scheduledTime with
      | some t => decide (t < now)
      | none => false) := by
  unfold checkinAfterGeofence at hsucc
  split at hsucc
  · simp at hsucc
  · dsimp only at hsucc
    have h : _ = r := Except.ok.inj hsucc
    rw [← h]

lemma checkinHandler_ok_is_late (env : Env) (now : ℤ) (userId : ℕ)
    (req : CheckinRequest) (s : LedgerState) (r : CheckinRecord)
    (hsucc : (checkinHandler env now userId req s).1 = Except.ok r) :
    r.is_late = (match req.scheduledTime with
      | some t => decide (t < now)
      | none => false) := by
  obtain ⟨pj, la, ln, ph, sc⟩ := req
  cases pj with
  | none => simp [checkinHandler] at hsucc
  | some pid =>
    cases la with
    | none => simp [checkinHandler] at hsucc
    | some lat =>
      cases ln with
      | none => simp [checkinHandler] at hsucc
      | some lng =>
        by_cases hv : pid = 0 ∨ lat = 0 ∨ lng = 0
        · simp [checkinHandler, hv] at hsucc
        · cases hwk : env.workerOf userId with
          | none => simp [checkinHandler, hv, hwk] at hsucc
          | some workerId =>
            cases hpr : env.projectOf pid with
            | none => simp [checkinHandler, hv, hwk, hpr] at hsucc
            | some proj =>
              rw [checkinHandler_eq env now userId _ s pid workerId lat lng proj
                rfl rfl rfl hv hwk hpr] at hsucc
              rcases hplat : proj.gps_latitude with _ | plat
              · rw [hplat] at hsucc
                exact checkinAfterGeofence_ok_is_late now pid workerId lat lng _ s r hsucc
              · rcases hplng : proj.gps_longitude with _ | plng
                · rw [hplat, hplng] at hsucc
                  exact checkinAfterGeofence_ok_is_late now pid workerId lat lng _ s r hsucc
                · rw [hplat, hplng] at hsucc
                  dsimp only at hsucc
                  split at hsucc
                  · simp at hsucc
                  · exact checkinAfterGeofence_ok_is_late now pid workerId lat lng _ s r hsucc

/-- Checkout never alters the `is_late` of any row: the row-closing update
writes only checkout fields. -/
lemma checkout_preserves_is_late (env : Env) (now : ℤ) (userId : ℕ)
    (req : CheckoutRequest) (s : LedgerState) :
    List.Forall₂ (fun o n => n.is_late = o.is_late) s.checkins
      ((checkoutHandler env now userId req s).2.checkins) := by
  rcases checkoutHandler_state env now userId req s with heq | ⟨c, lat, lng, hrs, heq⟩
  · rw [heq]
    exact List.forall₂_same.mpr (fun x _ => rfl)
  · rw [heq]
    rw [List.forall₂_map_right_iff]
    exact List.forall₂_same.mpr (fun x _ => by
      by_cases h : x.id = c.id <;> simp [h, closeRecord])

/-- A check-in never alters existing rows: the new state starts with the
old table unchanged. -/
lemma checkin_take_preserves (env : Env) (now : ℤ) (userId : ℕ)
    (req : CheckinRequest) (s : LedgerState) :
    (checkinHandler env now userId req s).2.checkins.take s.checkins.length =
      s.checkins := by
  rcases checkinHandler_state env now userId req s with heq | ⟨nc, _, _, heq⟩
  · rw [heq]
    exact List.take_length s.checkins
  · rw [heq]
    exact List.take_left s.checkins [nc]

/-- C6: the created shift's `is_late` is true exactly when a
`scheduledTime` was supplied and the current time is strictly after it,
false when absent; and no later operation (checkout closing rows, or
further check-ins appending rows) changes any existing row's `is_late`. -/
theorem is_late_strict_at_checkin (env : Env) (now : ℤ) (userId : ℕ)
    (req : CheckinRequest) (s : LedgerState) (r : CheckinRecord)
    (hsucc : (checkinHandler env now userId req s).1 = Except.ok r) :
    (req.scheduledTime = none → r.is_late = false) ∧
      (∀ t, req.scheduledTime = some t → (r.is_late = true ↔ t < now)) ∧
      (∀ (env2 : Env) (now2 : ℤ) (userId2 : ℕ) (coreq : CheckoutRequest)
          (s2 : LedgerState),
        List.Forall₂ (fun o n => n.is_late = o.is_late) s2.checkins
          ((checkoutHandler env2 now2 userId2 coreq s2).2.checkins)) ∧
      (∀ (env2 : Env) (now2 : ℤ) (userId2 : ℕ) (req2 : CheckinRequest)
          (s2 : LedgerState),
        (checkinHandler env2 now2 userId2 req2 s2).2.checkins.take s2.checkins.length =
          s2.checkins) := by
  have hlate := checkinHandler_ok_is_late env now userId req s r hsucc
  refine ⟨?_, ?_, ?_, ?_⟩
  · intro hnone
    rw [hlate, hnone]
  · intro t ht
    rw [hlate, ht]
    simp
  · intro env2 now2 userId2 coreq s2
    exact checkout_preserves_is_late env2 now2 userId2 coreq s2
  · intro env2 now2 userId2 req2 s2
    exact checkin_take_preserves env2 now2 userId2 req2 s2

def envC6 : Env :=
  ⟨fun uid => if uid = 1 then some 7 else none,
    fun pid => if pid = 2 then some ⟨none, none, none⟩ else none,
    fun _ => false⟩

def reqC6 : CheckinRequest := ⟨some 2, some 30, some (-97), none, some (-3600000)⟩

def recC6 : CheckinRecord :=
  ⟨1, 7, 2, 0, none, 30, -97, none, none, none, none, true, none, none⟩

/-- C6 witness: a check-in at time 0 with `scheduledTime` one hour in the
past creates a shift with `is_late = true`. -/
theorem is_late_strict_at_checkin_witness :
    (checkinHandler envC6 0 1 reqC6 ⟨[], 1⟩).1 = Except.ok recC6 ∧
      recC6.is_late = true := by
  have h1 : (checkinHandler envC6 0 1 reqC6 ⟨[], 1⟩).1 = Except.ok recC6 := rfl
  have h2 := (is_late_strict_at_checkin envC6 0 1 reqC6 ⟨[], 1⟩ recC6 h1).2.1
    (-3600000) rfl
  exact ⟨h1, h2.mpr (by decide)⟩

/-- C9: a successful checkout preserves, row by row, every check-in-side
field (`worker_id`, `project_id`, `checkin_time`, the check-in coordinate
and photo, `is_late`); rows other than the closed one are wholly unchanged,
and the closed row receives exactly the checkout fields. -/
theorem checkout_frame_effect (env : Env) (now : ℤ) (userId : ℕ)
    (req : CheckoutRequest) (s : LedgerState) (r : CheckinRecord) (hrs : ℚ)
    (s2 : LedgerState)
    (hsucc : checkoutHandler env now userId req s = (Except.ok (r, hrs), s2)) :
    List.Forall₂ (fun o n =>
      n.worker_id = o.worker_id ∧ n.project_id = o.project_id ∧
        n.checkin_time = o.checkin_time ∧ n.checkin_gps_lat = o.checkin_gps_lat ∧
        n.checkin_gps_lng = o.checkin_gps_lng ∧
        n.checkin_photo_url = o.checkin_photo_url ∧ n.is_late = o.is_late ∧
        (o.id ≠ r.id → n = o) ∧
        (o.id = r.id → n.checkout_time = some now ∧
          n.checkout_gps_lat = req.gpsLat ∧ n.checkout_gps_lng = req.gpsLng ∧
          n.hours_worked = some hrs))
      s.checkins s2.checkins := by
  obtain ⟨lat, lng, workerId, c, hla, hln, hwk, hfind, hres, hst⟩ :=
    checkoutHandler_ok env now userId req s (r, hrs) s2 hsucc
  have hr : r = closeRecord c now lat lng req.photoUrl req.notes
      (toFixed2 (roundB64 (((now - c.checkin_time : ℤ) : ℚ) / (1000 * 60 * 60)))) :=
    congrArg Prod.fst hres
  have hhrs : hrs = toFixed2 (roundB64 (((now - c.checkin_time : ℤ) : ℚ) / (1000 * 60 * 60))) :=
    congrArg Prod.snd hres
  have hrid : r.id = c.id := by rw [hr]; rfl
  rw [hst]
  rw [List.forall₂_map_right_iff]
  refine List.forall₂_same.mpr (fun x _ => ?_)
  by_cases h : x.id = c.id
  · rw [if_pos h]
    refine ⟨rfl, rfl, rfl, rfl, rfl, rfl, rfl, ?_, ?_⟩
    · intro hne
      exact absurd (h.trans hrid.symm) hne
    · intro _
      exact ⟨rfl, by rw [hla]; rfl, by rw [hln]; rfl, by rw [hhrs]; rfl⟩
  · rw [if_neg h]
    refine ⟨rfl, rfl, rfl, rfl, rfl, rfl, rfl, fun _ => rfl, ?_⟩
    intro hxe
    exact absurd (hxe.trans hrid) h

def envC9 : Env :=
  ⟨fun uid => if uid = 1 then some 7 else none, fun _ => none, fun _ => false⟩

def recC9 : CheckinRecord :=
  ⟨5, 7, 2, 0, none, 30, -97, none, none, none, none, false, none, none⟩

def recC9closed : CheckinRecord :=
  ⟨5, 7, 2, 0, some 9000000, 30, -97, some 31, some (-98), none, none, false,
    some (5 / 2), none⟩

lemma checkoutC9_eq :
    checkoutHandler envC9 9000000 1 ⟨some 31, some (-98), none, none⟩ ⟨[recC9], 6⟩ =
      (Except.ok (recC9closed, 5 / 2), ⟨[recC9closed], 6⟩) := by
  have hwk : envC9.workerOf 1 = some 7 := rfl
  have hfind : findActiveCheckin ⟨[recC9], 6⟩ 7 = some recC9 := by decide
  have ht : toFixed2 (roundB64 (((9000000 - recC9.checkin_time : ℤ) : ℚ) / (1000 * 60 * 60))) =
      5 / 2 := by
    have harg : ((9000000 - recC9.checkin_time : ℤ) : ℚ) / (1000 * 60 * 60) = 5 / 2 := by
      norm_num [recC9]
    rw [harg, roundB64_two_and_half]
    norm_num [toFixed2]
  simp only [checkoutHandler, hwk, hfind]
  rw [if_neg (by decide : ¬((31 : ℚ) = 0 ∨ (-98 : ℚ) = 0)), ht]
  simp [closeRecord, recC9, recC9closed, jsOrNullStr]

/-- C9 witness: closing the concrete shift 5 leaves its check-in-side
fields untouched. -/
theorem checkout_frame_effect_witness :
    recC9closed.checkin_time = recC9.checkin_time ∧
      recC9closed.checkin_gps_lat = recC9.checkin_gps_lat ∧
      recC9closed.is_late = recC9.is_late := by
  have h := checkout_frame_effect envC9 9000000 1 ⟨some 31, some (-98), none, none⟩
    ⟨[recC9], 6⟩ recC9closed (5 / 2) ⟨[recC9closed], 6⟩ checkoutC9_eq
  cases h with
  | cons hrel htail =>
    exact ⟨hrel.2.2.1, hrel.2.2.2.1, hrel.2.2.2.2.2.2.1⟩

end ConstruX
